import Mathlib

/-!
Verification of the `config` package of the Flex media server
(`src/unnamed/part_000`, Go package `config`).

The embedding models the process environment as a total function
`Env : String → String`: Go's `os.Getenv` returns the empty string both
for an unset variable and for a variable set to the empty string, and the
source consults the environment only through `os.Getenv`, so this is the
exact observable interface of the code.

Go's `strconv.Atoi` and `time.ParseDuration` are translated from the Go
standard library sources (`strconv/atoi.go`, `time/format.go`) as
`Option`-returning functions: `none` models a non-nil error.  `strings.Split`
on the comma separator is translated as `splitOnComma`.  Durations are
64-bit nanosecond counts, modelled as `Int` with the `int64` range checks
made explicit where the Go code performs them.
-/

namespace Flex

/-- The process environment as seen through `os.Getenv`: a variable that is
unset and a variable set to `""` are both observed as `""`. -/
def Env : Type := String → String

/-- Go `time.Duration` is an `int64` count of nanoseconds; modelled as `Int`
(range checks are explicit in the parser below). -/
abbrev Duration := Int

/-- Go `time.Nanosecond`. -/
def Nanosecond : Duration := 1

/-- Go `time.Microsecond` (1000 ns). -/
def Microsecond : Duration := 1000

/-- Go `time.Millisecond`. -/
def Millisecond : Duration := 1000000

/-- Go `time.Second`. -/
def Second : Duration := 1000000000

/-- Go `time.Minute`. -/
def Minute : Duration := 60000000000

/-- Go `time.Hour`. -/
def Hour : Duration := 3600000000000

/-- Digit sequence to its base-10 value; `none` when the list is empty or
holds a non-digit.  Used by the model of `strconv.Atoi` (Go's `ParseUint`
loop rejects any non-digit rune and requires at least one digit). -/
def digitsToNat : List Char → Option Nat
  | [] => none
  | cs =>
    if cs.all Char.isDigit then
      some (cs.foldl (fun a c => a * 10 + (c.toNat - '0'.toNat)) 0)
    else none

/-- Model of Go `strconv.Atoi` (= `ParseInt(s, 10, 0)` with 64-bit `int`):
optional `+`/`-` sign, one or more base-10 digits, value within the `int64`
range.  `some n` models return `(n, nil)`; `none` models a non-nil error
(syntax error or range error). -/
def Atoi (s : String) : Option Int :=
  let signed : Bool × List Char :=
    match s.data with
    | '-' :: rest => (true, rest)
    | '+' :: rest => (false, rest)
    | cs => (false, cs)
  match digitsToNat signed.2 with
  | none => none
  | some u =>
    if signed.1 then
      if u ≤ 2 ^ 63 then some (-(u : Int)) else none
    else
      if u ≤ 2 ^ 63 - 1 then some (u : Int) else none

/-- Model of Go `time.leadingInt`: consume leading digits into a `uint64`
accumulator, failing (`errLeadingInt`) on overflow past `1<<63`.  Returns
the value and the unconsumed remainder. -/
def leadingIntAux : Nat → List Char → Option (Nat × List Char)
  | x, [] => some (x, [])
  | x, c :: cs =>
    if c.isDigit then
      if x > 2 ^ 63 / 10 then none
      else
        let x' := x * 10 + (c.toNat - '0'.toNat)
        if x' > 2 ^ 63 then none
        else leadingIntAux x' cs
    else some (x, c :: cs)

/-- Entry point of the `leadingInt` model (accumulator starts at 0). -/
def leadingInt (s : List Char) : Option (Nat × List Char) :=
  leadingIntAux 0 s

/-- Model of Go `time.leadingFraction`: consume leading digits after the
decimal point, tracking the value and the scale (a power of ten); on
overflow further digits are skipped without changing value or scale.
Go keeps `scale` in a `float64`, which is exact for every power of ten
reachable here (at most `10^19`), so a `Nat` scale is faithful. -/
def leadingFractionAux : Nat → Nat → Bool → List Char → Nat × Nat × List Char
  | x, scale, _, [] => (x, scale, [])
  | x, scale, overflow, c :: cs =>
    if c.isDigit then
      if overflow then leadingFractionAux x scale overflow cs
      else if x > (2 ^ 63 - 1) / 10 then leadingFractionAux x scale true cs
      else
        let y := x * 10 + (c.toNat - '0'.toNat)
        if y > 2 ^ 63 then leadingFractionAux x scale true cs
        else leadingFractionAux y (scale * 10) overflow cs
    else (x, scale, c :: cs)

/-- Entry point of the `leadingFraction` model. -/
def leadingFraction (s : List Char) : Nat × Nat × List Char :=
  leadingFractionAux 0 1 false s

/-- The unit table of `time.ParseDuration` (`unitMap`), in nanoseconds. -/
def unitMap : List Char → Option Nat
  | ['n', 's'] => some 1
  | ['u', 's'] => some 1000
  | ['µ', 's'] => some 1000
  | ['μ', 's'] => some 1000
  | ['m', 's'] => some 1000000
  | ['s'] => some 1000000000
  | ['m'] => some 60000000000
  | ['h'] => some 3600000000000
  | _ => none

/-- Consume the unit name: the maximal prefix free of digits and `.`
(the loop `for ; i < len(s); i++` in `ParseDuration`). -/
def spanUnit : List Char → List Char × List Char
  | [] => ([], [])
  | c :: cs =>
    if c = '.' ∨ c.isDigit then ([], c :: cs)
    else
      let p := spanUnit cs
      (c :: p.1, p.2)

/-- One pass of the main loop of `time.ParseDuration` (`for s != ""`),
accumulating the magnitude `d` in nanoseconds as a `uint64`-style `Nat`
with the source's overflow checks (`> 1<<63`).  The fuel argument only
bounds the recursion: every loop iteration of the Go code consumes at
least one character, so `length + 1` fuel is never exhausted.
The fractional contribution, which Go computes as
`uint64(float64(f) * (float64(unit) / scale))`, is modelled by the exact
truncated quotient `f * unit / scale`. -/
def durationLoop : Nat → Nat → List Char → Option Nat
  | _, d, [] => some d
  | 0, _, _ => none
  | fuel + 1, d, c :: cs0 =>
    if c = '.' ∨ c.isDigit then
      match leadingInt (c :: cs0) with
      | none => none
      | some (v, s1) =>
        let pre : Bool := s1.length ≠ (c :: cs0).length
        let fsp : Nat × Nat × List Char × Bool :=
          match s1 with
          | '.' :: rest =>
            let p := leadingFraction rest
            (p.1, p.2.1, p.2.2, decide (p.2.2.length ≠ rest.length))
          | _ => (0, 1, s1, false)
        let f := fsp.1
        let scale := fsp.2.1
        let s2 := fsp.2.2.1
        let post := fsp.2.2.2
        if pre = false ∧ post = false then none
        else
          let up := spanUnit s2
          if up.1 = [] then none
          else
            match unitMap up.1 with
            | none => none
            | some unit =>
              if v > 2 ^ 63 / unit then none
              else
                let v1 := v * unit
                let v2 := if f > 0 then v1 + f * unit / scale else v1
                if f > 0 ∧ v2 > 2 ^ 63 then none
                else
                  let d1 := d + v2
                  if d1 > 2 ^ 63 then none
                  else durationLoop fuel d1 up.2
    else none

/-- Model of Go `time.ParseDuration`: optional sign, the special case `"0"`,
then repeated number-plus-unit groups; `some d` models `(d, nil)` and
`none` a non-nil error, including the final `int64` range checks
(`-Duration(d)` for a negative result, rejection when `d > 1<<63-1`
for a positive one). -/
def ParseDuration (s : String) : Option Duration :=
  let signed : Bool × List Char :=
    match s.data with
    | '-' :: rest => (true, rest)
    | '+' :: rest => (false, rest)
    | cs => (false, cs)
  let neg := signed.1
  let cs := signed.2
  if cs = ['0'] then some 0
  else if cs = [] then none
  else
    match durationLoop (cs.length + 1) 0 cs with
    | none => none
    | some d =>
      if neg then some (-(d : Int))
      else if d > 2 ^ 63 - 1 then none
      else some (d : Int)

/-- Character-list core of the model of Go `strings.Split(s, ",")`:
split at every comma, keeping empty pieces; the empty list yields one
empty piece, as `strings.Split("") = [""]`. -/
def splitChars : List Char → List (List Char)
  | [] => [[]]
  | c :: cs =>
    if c = ',' then [] :: splitChars cs
    else
      match splitChars cs with
      | [] => [[c]]
      | h :: t => (c :: h) :: t

/-- Model of Go `strings.Split(s, ",")`: every maximal comma-free substring
in order, with no trimming; always at least one element. -/
def splitOnComma (s : String) : List String :=
  (splitChars s.data).map String.mk

/-- Go `config.AppConfig`. -/
structure AppConfig where
  Name : String
  Environment : String
  Host : String
  Port : String
  Origins : List String
  deriving Repr, DecidableEq

/-- Go `config.DatabaseConfig`. -/
structure DatabaseConfig where
  Host : String
  Port : String
  User : String
  Password : String
  Name : String
  SSLMode : String
  MaxConnections : Int
  MaxIdleTime : Duration
  deriving Repr, DecidableEq

/-- Go `config.RedisConfig`. -/
structure RedisConfig where
  Host : String
  Port : String
  Password : String
  DB : Int
  deriving Repr, DecidableEq

/-- Go `config.JWTConfig`. -/
structure JWTConfig where
  Secret : String
  ExpiresIn : Duration
  deriving Repr, DecidableEq

/-- Go `config.MediaConfig`. -/
structure MediaConfig where
  RootPath : String
  UploadPath : String
  PosterPath : String
  ThumbnailPath : String
  FFmpegPath : String
  MediaInfoPath : String
  deriving Repr, DecidableEq

/-- Go `config.ExternalConfig`. -/
structure ExternalConfig where
  TMDBAPIKey : String
  OMDBAPIKey : String
  deriving Repr, DecidableEq

/-- Go `config.LoggingConfig`. -/
structure LoggingConfig where
  Level : String
  Format : String
  deriving Repr, DecidableEq

/-- Go `config.Config`: the full configuration snapshot. -/
structure Config where
  App : AppConfig
  Database : DatabaseConfig
  Redis : RedisConfig
  JWT : JWTConfig
  Media : MediaConfig
  External : ExternalConfig
  Logging : LoggingConfig
  deriving Repr, DecidableEq

/-- Go `config.getEnv`: the variable's value when it is non-empty,
otherwise the default. -/
def getEnv (key defaultValue : String) (env : Env) : String :=
  if env key ≠ "" then env key else defaultValue

/-- Go `config.getEnvAsInt`: when the variable is non-empty and
`strconv.Atoi` succeeds, the parsed integer; otherwise the default. -/
def getEnvAsInt (key : String) (defaultValue : Int) (env : Env) : Int :=
  if env key ≠ "" then
    match Atoi (env key) with
    | some intValue => intValue
    | none => defaultValue
  else defaultValue

/-- Go `config.getEnvAsDuration`: when the variable is non-empty and
`time.ParseDuration` succeeds, the parsed duration; otherwise the default. -/
def getEnvAsDuration (key : String) (defaultValue : Duration) (env : Env) : Duration :=
  if env key ≠ "" then
    match ParseDuration (env key) with
    | some duration => duration
    | none => defaultValue
  else defaultValue

/-- Go `config.Load`: assembles the snapshot from the environment and
returns it with a nil error, modelled as `none` in the second component. -/
def Load (env : Env) : Config × Option String :=
  ({ App :=
      { Name := getEnv "APP_NAME" "Flex Media Server" env
        Environment := getEnv "ENV" "development" env
        Host := getEnv "HOST" "0.0.0.0" env
        Port := getEnv "PORT" "8080" env
        Origins := splitOnComma (getEnv "ALLOWED_ORIGINS" "http://localhost:3000" env) }
     Database :=
      { Host := getEnv "DB_HOST" "localhost" env
        Port := getEnv "DB_PORT" "5432" env
        User := getEnv "DB_USER" "flex_user" env
        Password := getEnv "DB_PASSWORD" "flex_password" env
        Name := getEnv "DB_NAME" "flex_dev" env
        SSLMode := getEnv "DB_SSLMODE" "disable" env
        MaxConnections := getEnvAsInt "DB_MAX_CONNECTIONS" 25 env
        MaxIdleTime := getEnvAsDuration "DB_MAX_IDLE_TIME" (15 * Minute) env }
     Redis :=
      { Host := getEnv "REDIS_HOST" "localhost" env
        Port := getEnv "REDIS_PORT" "6379" env
        Password := getEnv "REDIS_PASSWORD" "" env
        DB := getEnvAsInt "REDIS_DB" 0 env }
     JWT :=
      { Secret := getEnv "JWT_SECRET" "your-secret-key" env
        ExpiresIn := getEnvAsDuration "JWT_EXPIRES_IN" (24 * Hour) env }
     Media :=
      { RootPath := getEnv "MEDIA_ROOT_PATH" "/media/library" env
        UploadPath := getEnv "UPLOAD_PATH" "/tmp/flex-uploads" env
        PosterPath := getEnv "POSTER_PATH" "/tmp/flex-posters" env
        ThumbnailPath := getEnv "THUMBNAIL_PATH" "/tmp/flex-thumbnails" env
        FFmpegPath := getEnv "FFMPEG_PATH" "ffmpeg" env
        MediaInfoPath := getEnv "MEDIAINFO_PATH" "mediainfo" env }
     External :=
      { TMDBAPIKey := getEnv "TMDB_API_KEY" "" env
        OMDBAPIKey := getEnv "OMDB_API_KEY" "" env }
     Logging :=
      { Level := getEnv "LOG_LEVEL" "info" env
        Format := getEnv "LOG_FORMAT" "console" env } },
   none)

/-- The environment with every variable unset (`os.Getenv` yields `""`
everywhere); it also represents any variable explicitly set to the empty
string, which `os.Getenv` cannot distinguish from unset. -/
def emptyEnv : Env := fun _ => ""

/-- Environment with only `DB_MAX_CONNECTIONS` set, to an unparsable string. -/
def envDbConnBad : Env := fun k => if k = "DB_MAX_CONNECTIONS" then "notanumber" else ""

/-- Environment with only `DB_MAX_CONNECTIONS` set, to `"42"`. -/
def envDbConn42 : Env := fun k => if k = "DB_MAX_CONNECTIONS" then "42" else ""

/-- Environment with only `REDIS_DB` set, to `"3"`. -/
def envRedisDb3 : Env := fun k => if k = "REDIS_DB" then "3" else ""

/-- Environment with only `JWT_EXPIRES_IN` set, to `"48h"`. -/
def envJwt48h : Env := fun k => if k = "JWT_EXPIRES_IN" then "48h" else ""

/-- Environment with only `DB_MAX_IDLE_TIME` set, to an invalid duration. -/
def envIdleBad : Env := fun k => if k = "DB_MAX_IDLE_TIME" then "nope" else ""

/-- Environment with only `ALLOWED_ORIGINS` set, to two comma-separated origins. -/
def envOriginsAB : Env := fun k => if k = "ALLOWED_ORIGINS" then "http://a.com,http://b.com" else ""

/-- Environment with only `PORT` set, to `"9090"`. -/
def envPort9090 : Env := fun k => if k = "PORT" then "9090" else ""

/-- `getEnv` reads the environment only at its own key: agreeing
environments resolve the field identically. -/
theorem getEnv_congr {k : String} (d : String) {e₁ e₂ : Env} (h : e₁ k = e₂ k) :
    getEnv k d e₁ = getEnv k d e₂ := by
  simp [getEnv, h]

/-- `getEnvAsInt` reads the environment only at its own key. -/
theorem getEnvAsInt_congr {k : String} (d : Int) {e₁ e₂ : Env} (h : e₁ k = e₂ k) :
    getEnvAsInt k d e₁ = getEnvAsInt k d e₂ := by
  simp [getEnvAsInt, h]

/-- `getEnvAsDuration` reads the environment only at its own key. -/
theorem getEnvAsDuration_congr {k : String} (d : Duration) {e₁ e₂ : Env} (h : e₁ k = e₂ k) :
    getEnvAsDuration k d e₁ = getEnvAsDuration k d e₂ := by
  simp [getEnvAsDuration, h]

/-- Splitting a character list at commas always yields at least one piece. -/
theorem splitChars_length_pos : ∀ cs : List Char, 0 < (splitChars cs).length := by
  intro cs
  induction cs with
  | nil => simp [splitChars]
  | cons c cs ih =>
    by_cases hc : c = ','
    · simp [splitChars, hc]
    · simp only [splitChars, if_neg hc]
      cases hsc : splitChars cs with
      | nil => simp
      | cons h t => simp

/-- A string other than the empty string has positive length. -/
theorem length_pos_of_ne_empty (s : String) (h : s ≠ "") : 0 < s.length := by
  rcases s with ⟨data⟩
  cases data with
  | nil => exact absurd (by decide) h
  | cons c cs => exact Nat.succ_pos cs.length

/-- C1: for every process environment, `Load` returns a snapshot together
with a nil error; no environment content ever populates the error return
(the snapshot itself is total by construction). -/
theorem load_never_errors : ∀ env : Env, (Load env).2 = none :=
  fun _ => rfl

/-- C2: with every consulted variable unset (or empty), `Load` returns
exactly the compiled-in defaults of the §4.1 table: each string field is
the default literal, `MaxConnections = 25`, `MaxIdleTime` is 15 minutes,
`ExpiresIn` is 24 hours, the Redis `DB` index is 0, and
`Origins = ["http://localhost:3000"]`, with a nil error. -/
theorem load_defaults_on_empty_env :
    Load emptyEnv =
      ({ App :=
          { Name := "Flex Media Server"
            Environment := "development"
            Host := "0.0.0.0"
            Port := "8080"
            Origins := ["http://localhost:3000"] }
         Database :=
          { Host := "localhost"
            Port := "5432"
            User := "flex_user"
            Password := "flex_password"
            Name := "flex_dev"
            SSLMode := "disable"
            MaxConnections := 25
            MaxIdleTime := 15 * Minute }
         Redis := { Host := "localhost", Port := "6379", Password := "", DB := 0 }
         JWT := { Secret := "your-secret-key", ExpiresIn := 24 * Hour }
         Media :=
          { RootPath := "/media/library"
            UploadPath := "/tmp/flex-uploads"
            PosterPath := "/tmp/flex-posters"
            ThumbnailPath := "/tmp/flex-thumbnails"
            FFmpegPath := "ffmpeg"
            MediaInfoPath := "mediainfo" }
         External := { TMDBAPIKey := "", OMDBAPIKey := "" }
         Logging := { Level := "info", Format := "console" } },
       none) := by
  decide

/-- C3: an integer field resolves to the parsed value exactly when
`strconv.Atoi` succeeds on the variable's value, and to the default when
the variable is missing or unparsable; in particular
`DB_MAX_CONNECTIONS="notanumber"` resolves to 25 (not an error, not 0),
and the defaults are 25 for `DB_MAX_CONNECTIONS` and 0 for `REDIS_DB`. -/
theorem getEnvAsInt_resolution :
    (∀ (k : String) (d : Int) (env : Env),
      (∀ n : Int, Atoi (env k) = some n → getEnvAsInt k d env = n) ∧
      (Atoi (env k) = none → getEnvAsInt k d env = d)) ∧
    (Load envDbConnBad).1.Database.MaxConnections = 25 ∧
    (Load envDbConn42).1.Database.MaxConnections = 42 ∧
    (Load emptyEnv).1.Database.MaxConnections = 25 ∧
    (Load emptyEnv).1.Redis.DB = 0 := by
  refine ⟨?_, by decide, by decide, by decide, by decide⟩
  intro k d env
  constructor
  · intro n h
    by_cases he : env k = ""
    · rw [he, show Atoi "" = none from rfl] at h
      exact Option.noConfusion h
    · simp [getEnvAsInt, he, h]
  · intro h
    by_cases he : env k = ""
    · simp [getEnvAsInt, he]
    · simp [getEnvAsInt, he, h]

/-- C3 witness: `REDIS_DB="3"` resolves to 3 and an empty environment
resolves `REDIS_DB` to its default 0. -/
theorem getEnvAsInt_resolution_witness :
    getEnvAsInt "REDIS_DB" 0 envRedisDb3 = 3 ∧ getEnvAsInt "REDIS_DB" 0 emptyEnv = 0 :=
  ⟨(getEnvAsInt_resolution.1 "REDIS_DB" 0 envRedisDb3).1 3 (by decide),
   (getEnvAsInt_resolution.1 "REDIS_DB" 0 emptyEnv).2 (by decide)⟩

/-- C4: a duration field resolves to the parsed value exactly when
`time.ParseDuration` succeeds on the variable's value, and to the default
when the variable is missing or invalid; in particular `"48h"` parses to
exactly 48 hours, `JWT_EXPIRES_IN="48h"` resolves to 48 hours,
`DB_MAX_IDLE_TIME="nope"` resolves to the 15-minute default, and an empty
environment resolves `JWT_EXPIRES_IN` to 24 hours. -/
theorem getEnvAsDuration_resolution :
    (∀ (k : String) (d : Duration) (env : Env),
      (∀ t : Duration, ParseDuration (env k) = some t → getEnvAsDuration k d env = t) ∧
      (ParseDuration (env k) = none → getEnvAsDuration k d env = d)) ∧
    ParseDuration "48h" = some (48 * Hour) ∧
    (Load envJwt48h).1.JWT.ExpiresIn = 48 * Hour ∧
    (Load envIdleBad).1.Database.MaxIdleTime = 15 * Minute ∧
    (Load emptyEnv).1.JWT.ExpiresIn = 24 * Hour := by
  refine ⟨?_, by decide, by decide, by decide, by decide⟩
  intro k d env
  constructor
  · intro t h
    by_cases he : env k = ""
    · rw [he, show ParseDuration "" = none from rfl] at h
      exact Option.noConfusion h
    · simp [getEnvAsDuration, he, h]
  · intro h
    by_cases he : env k = ""
    · simp [getEnvAsDuration, he]
    · simp [getEnvAsDuration, he, h]

/-- C4 witness: `JWT_EXPIRES_IN="48h"` resolves to 48 hours and
`DB_MAX_IDLE_TIME="nope"` resolves to the 15-minute default. -/
theorem getEnvAsDuration_resolution_witness :
    getEnvAsDuration "JWT_EXPIRES_IN" (24 * Hour) envJwt48h = 48 * Hour ∧
    getEnvAsDuration "DB_MAX_IDLE_TIME" (15 * Minute) envIdleBad = 15 * Minute :=
  ⟨(getEnvAsDuration_resolution.1 "JWT_EXPIRES_IN" (24 * Hour) envJwt48h).1
      (48 * Hour) (by decide),
   (getEnvAsDuration_resolution.1 "DB_MAX_IDLE_TIME" (15 * Minute) envIdleBad).2 (by decide)⟩

/-- C5: a string field resolves verbatim to the variable's value when it is
non-empty, and to the default literal when the variable is unset or empty;
and every string field of the snapshot is resolved by `getEnv` with its
documented variable name and default. -/
theorem getEnv_resolution :
    (∀ (k d : String) (env : Env),
      (env k ≠ "" → getEnv k d env = env k) ∧
      (env k = "" → getEnv k d env = d)) ∧
    (∀ env : Env,
      (Load env).1.App.Name = getEnv "APP_NAME" "Flex Media Server" env ∧
      (Load env).1.App.Environment = getEnv "ENV" "development" env ∧
      (Load env).1.App.Host = getEnv "HOST" "0.0.0.0" env ∧
      (Load env).1.App.Port = getEnv "PORT" "8080" env ∧
      (Load env).1.Database.Host = getEnv "DB_HOST" "localhost" env ∧
      (Load env).1.Database.Port = getEnv "DB_PORT" "5432" env ∧
      (Load env).1.Database.User = getEnv "DB_USER" "flex_user" env ∧
      (Load env).1.Database.Password = getEnv "DB_PASSWORD" "flex_password" env ∧
      (Load env).1.Database.Name = getEnv "DB_NAME" "flex_dev" env ∧
      (Load env).1.Database.SSLMode = getEnv "DB_SSLMODE" "disable" env ∧
      (Load env).1.Redis.Host = getEnv "REDIS_HOST" "localhost" env ∧
      (Load env).1.Redis.Port = getEnv "REDIS_PORT" "6379" env ∧
      (Load env).1.Redis.Password = getEnv "REDIS_PASSWORD" "" env ∧
      (Load env).1.JWT.Secret = getEnv "JWT_SECRET" "your-secret-key" env ∧
      (Load env).1.Media.RootPath = getEnv "MEDIA_ROOT_PATH" "/media/library" env ∧
      (Load env).1.Media.UploadPath = getEnv "UPLOAD_PATH" "/tmp/flex-uploads" env ∧
      (Load env).1.Media.PosterPath = getEnv "POSTER_PATH" "/tmp/flex-posters" env ∧
      (Load env).1.Media.ThumbnailPath = getEnv "THUMBNAIL_PATH" "/tmp/flex-thumbnails" env ∧
      (Load env).1.Media.FFmpegPath = getEnv "FFMPEG_PATH" "ffmpeg" env ∧
      (Load env).1.Media.MediaInfoPath = getEnv "MEDIAINFO_PATH" "mediainfo" env ∧
      (Load env).1.External.TMDBAPIKey = getEnv "TMDB_API_KEY" "" env ∧
      (Load env).1.External.OMDBAPIKey = getEnv "OMDB_API_KEY" "" env ∧
      (Load env).1.Logging.Level = getEnv "LOG_LEVEL" "info" env ∧
      (Load env).1.Logging.Format = getEnv "LOG_FORMAT" "console" env) := by
  refine ⟨?_, ?_⟩
  · intro k d env
    constructor
    · intro h
      simp [getEnv, h]
    · intro h
      simp [getEnv, h]
  · intro env
    exact ⟨rfl, rfl, rfl, rfl, rfl, rfl, rfl, rfl, rfl, rfl, rfl, rfl,
           rfl, rfl, rfl, rfl, rfl, rfl, rfl, rfl, rfl, rfl, rfl, rfl⟩

/-- C5 witness: `PORT="9090"` resolves verbatim to `"9090"`, and the empty
environment resolves `PORT` to its default `"8080"`. -/
theorem getEnv_resolution_witness :
    getEnv "PORT" "8080" envPort9090 = "9090" ∧ getEnv "PORT" "8080" emptyEnv = "8080" :=
  ⟨(getEnv_resolution.1 "PORT" "8080" envPort9090).1 (by decide),
   (getEnv_resolution.1 "PORT" "8080" emptyEnv).2 rfl⟩

/-- C6: the Origins field is the comma-split of the resolved
`ALLOWED_ORIGINS` string, order-preserving and untrimmed:
two comma-separated origins yield exactly that two-element list, and the
unset case yields `["http://localhost:3000"]`. -/
theorem load_origins_split :
    (∀ env : Env,
      (Load env).1.App.Origins =
        splitOnComma (getEnv "ALLOWED_ORIGINS" "http://localhost:3000" env)) ∧
    (Load envOriginsAB).1.App.Origins = ["http://a.com", "http://b.com"] ∧
    (Load emptyEnv).1.App.Origins = ["http://localhost:3000"] :=
  ⟨fun _ => rfl, by decide, by decide⟩

/-- C7 counterexample: with `ALLOWED_ORIGINS` set to the empty string the
snapshot's Origins is not `[""]`.  `os.Getenv` observes a variable set to
`""` exactly as it observes an unset one, so `emptyEnv` is the environment
in which `ALLOWED_ORIGINS` is set to the empty string; `getEnv` then falls
back to the non-empty default before the split ever sees an empty string. -/
theorem load_origins_empty_var_counterexample :
    (Load emptyEnv).1.App.Origins ≠ [""] := by
  decide

/-- C7 amended: splitting an empty source string does yield `[""]`, but in
`Load` the split's source is never empty — with `ALLOWED_ORIGINS` empty or
unset the resolved string is the default, so Origins is
`["http://localhost:3000"]`. -/
theorem load_origins_empty_var_amended :
    splitOnComma "" = [""] ∧
    (Load emptyEnv).1.App.Origins = ["http://localhost:3000"] :=
  ⟨rfl, by decide⟩

/-- C8: per-field noninterference — any two environments that agree on a
field's own variable resolve that field identically, however the other
variables differ. -/
theorem load_per_field_noninterference : ∀ e₁ e₂ : Env,
    (e₁ "APP_NAME" = e₂ "APP_NAME" → (Load e₁).1.App.Name = (Load e₂).1.App.Name) ∧
    (e₁ "ENV" = e₂ "ENV" → (Load e₁).1.App.Environment = (Load e₂).1.App.Environment) ∧
    (e₁ "HOST" = e₂ "HOST" → (Load e₁).1.App.Host = (Load e₂).1.App.Host) ∧
    (e₁ "PORT" = e₂ "PORT" → (Load e₁).1.App.Port = (Load e₂).1.App.Port) ∧
    (e₁ "ALLOWED_ORIGINS" = e₂ "ALLOWED_ORIGINS" →
      (Load e₁).1.App.Origins = (Load e₂).1.App.Origins) ∧
    (e₁ "DB_HOST" = e₂ "DB_HOST" → (Load e₁).1.Database.Host = (Load e₂).1.Database.Host) ∧
    (e₁ "DB_PORT" = e₂ "DB_PORT" → (Load e₁).1.Database.Port = (Load e₂).1.Database.Port) ∧
    (e₁ "DB_USER" = e₂ "DB_USER" → (Load e₁).1.Database.User = (Load e₂).1.Database.User) ∧
    (e₁ "DB_PASSWORD" = e₂ "DB_PASSWORD" →
      (Load e₁).1.Database.Password = (Load e₂).1.Database.Password) ∧
    (e₁ "DB_NAME" = e₂ "DB_NAME" → (Load e₁).1.Database.Name = (Load e₂).1.Database.Name) ∧
    (e₁ "DB_SSLMODE" = e₂ "DB_SSLMODE" →
      (Load e₁).1.Database.SSLMode = (Load e₂).1.Database.SSLMode) ∧
    (e₁ "DB_MAX_CONNECTIONS" = e₂ "DB_MAX_CONNECTIONS" →
      (Load e₁).1.Database.MaxConnections = (Load e₂).1.Database.MaxConnections) ∧
    (e₁ "DB_MAX_IDLE_TIME" = e₂ "DB_MAX_IDLE_TIME" →
      (Load e₁).1.Database.MaxIdleTime = (Load e₂).1.Database.MaxIdleTime) ∧
    (e₁ "REDIS_HOST" = e₂ "REDIS_HOST" → (Load e₁).1.Redis.Host = (Load e₂).1.Redis.Host) ∧
    (e₁ "REDIS_PORT" = e₂ "REDIS_PORT" → (Load e₁).1.Redis.Port = (Load e₂).1.Redis.Port) ∧
    (e₁ "REDIS_PASSWORD" = e₂ "REDIS_PASSWORD" →
      (Load e₁).1.Redis.Password = (Load e₂).1.Redis.Password) ∧
    (e₁ "REDIS_DB" = e₂ "REDIS_DB" → (Load e₁).1.Redis.DB = (Load e₂).1.Redis.DB) ∧
    (e₁ "JWT_SECRET" = e₂ "JWT_SECRET" → (Load e₁).1.JWT.Secret = (Load e₂).1.JWT.Secret) ∧
    (e₁ "JWT_EXPIRES_IN" = e₂ "JWT_EXPIRES_IN" →
      (Load e₁).1.JWT.ExpiresIn = (Load e₂).1.JWT.ExpiresIn) ∧
    (e₁ "MEDIA_ROOT_PATH" = e₂ "MEDIA_ROOT_PATH" →
      (Load e₁).1.Media.RootPath = (Load e₂).1.Media.RootPath) ∧
    (e₁ "UPLOAD_PATH" = e₂ "UPLOAD_PATH" →
      (Load e₁).1.Media.UploadPath = (Load e₂).1.Media.UploadPath) ∧
    (e₁ "POSTER_PATH" = e₂ "POSTER_PATH" →
      (Load e₁).1.Media.PosterPath = (Load e₂).1.Media.PosterPath) ∧
    (e₁ "THUMBNAIL_PATH" = e₂ "THUMBNAIL_PATH" →
      (Load e₁).1.Media.ThumbnailPath = (Load e₂).1.Media.ThumbnailPath) ∧
    (e₁ "FFMPEG_PATH" = e₂ "FFMPEG_PATH" →
      (Load e₁).1.Media.FFmpegPath = (Load e₂).1.Media.FFmpegPath) ∧
    (e₁ "MEDIAINFO_PATH" = e₂ "MEDIAINFO_PATH" →
      (Load e₁).1.Media.MediaInfoPath = (Load e₂).1.Media.MediaInfoPath) ∧
    (e₁ "TMDB_API_KEY" = e₂ "TMDB_API_KEY" →
      (Load e₁).1.External.TMDBAPIKey = (Load e₂).1.External.TMDBAPIKey) ∧
    (e₁ "OMDB_API_KEY" = e₂ "OMDB_API_KEY" →
      (Load e₁).1.External.OMDBAPIKey = (Load e₂).1.External.OMDBAPIKey) ∧
    (e₁ "LOG_LEVEL" = e₂ "LOG_LEVEL" →
      (Load e₁).1.Logging.Level = (Load e₂).1.Logging.Level) ∧
    (e₁ "LOG_FORMAT" = e₂ "LOG_FORMAT" →
      (Load e₁).1.Logging.Format = (Load e₂).1.Logging.Format) :=
  fun e₁ e₂ =>
  ⟨fun h => getEnv_congr _ h, fun h => getEnv_congr _ h, fun h => getEnv_congr _ h,
   fun h => getEnv_congr _ h,
   fun h => congrArg splitOnComma (getEnv_congr _ h),
   fun h => getEnv_congr _ h, fun h => getEnv_congr _ h, fun h => getEnv_congr _ h,
   fun h => getEnv_congr _ h, fun h => getEnv_congr _ h, fun h => getEnv_congr _ h,
   fun h => getEnvAsInt_congr _ h, fun h => getEnvAsDuration_congr _ h,
   fun h => getEnv_congr _ h, fun h => getEnv_congr _ h, fun h => getEnv_congr _ h,
   fun h => getEnvAsInt_congr _ h,
   fun h => getEnv_congr _ h, fun h => getEnvAsDuration_congr _ h,
   fun h => getEnv_congr _ h, fun h => getEnv_congr _ h, fun h => getEnv_congr _ h,
   fun h => getEnv_congr _ h, fun h => getEnv_congr _ h, fun h => getEnv_congr _ h,
   fun h => getEnv_congr _ h, fun h => getEnv_congr _ h, fun h => getEnv_congr _ h,
   fun h => getEnv_congr _ h⟩

/-- C8 witness: the empty environment and one that sets only `PORT` agree
on `APP_NAME`, so the resolved application name is identical. -/
theorem load_per_field_noninterference_witness :
    (Load emptyEnv).1.App.Name = (Load envPort9090).1.App.Name :=
  (load_per_field_noninterference emptyEnv envPort9090).1 (by decide)

/-- C9: `Load` is deterministic in the environment — two calls that observe
the same value for every variable return equal snapshot/error pairs (the
code reads only the environment and keeps no state across calls). -/
theorem load_deterministic : ∀ e₁ e₂ : Env, (∀ k, e₁ k = e₂ k) → Load e₁ = Load e₂ :=
  fun _ _ h => congrArg Load (funext h)

/-- C9 witness: two calls on the (unchanged) empty environment return equal
results. -/
theorem load_deterministic_witness : Load emptyEnv = Load emptyEnv :=
  load_deterministic emptyEnv emptyEnv (fun _ => rfl)

/-- C10: for every environment the resolved `ALLOWED_ORIGINS` string has
positive length (empty or unset falls back to the non-empty default) and
the Origins list of the snapshot has at least one element. -/
theorem load_origins_nonempty : ∀ env : Env,
    0 < (getEnv "ALLOWED_ORIGINS" "http://localhost:3000" env).length ∧
    0 < (Load env).1.App.Origins.length := by
  intro env
  constructor
  · by_cases he : env "ALLOWED_ORIGINS" = ""
    · rw [show getEnv "ALLOWED_ORIGINS" "http://localhost:3000" env = "http://localhost:3000"
            from by simp [getEnv, he]]
      decide
    · simpa [getEnv, he] using length_pos_of_ne_empty _ he
  · show 0 < (splitOnComma (getEnv "ALLOWED_ORIGINS" "http://localhost:3000" env)).length
    simpa [splitOnComma] using
      splitChars_length_pos (getEnv "ALLOWED_ORIGINS" "http://localhost:3000" env).data

end Flex
